import Mathlib

/-!
Shallow embedding of the asynchronous fit-execution subsystem of refl1d
(src/refl1d/gui/fit_thread.py and src/refl1d/gui/app_panel.py).

Times (`History.time`) and parameter/cost values are modelled as rationals;
the uncertainty-state blob is modelled as an opaque identifier.  Python
attribute access that can fail is modelled with `Except`; a Python value that
can be `None` is modelled with `Option`.
-/

namespace Refl1d

/-- A reference to one of the two problem objects alive during a fit run:
the caller's original problem, or the private deep copy made in
`FitThread.run` (fit_thread.py line 159). -/
inductive ProblemRef
  | original
  | snapshot
  deriving DecidableEq, Repr

/-- A fit problem: its fittable parameter values.  The cost function and the
rest of the model are opaque to the fit-thread code under study. -/
structure Problem where
  params : List ℚ
  deriving DecidableEq, Repr

/-- `problem.setp(point)`: overwrite the parameter values with `point`. -/
def Problem.setp (_p : Problem) (point : List ℚ) : Problem :=
  { params := point }

/-- The two problem objects reachable during a run: the caller's original and
the deep-copied snapshot.  Mutation through one reference is visible only in
its own slot, which is exactly what `deepcopy` guarantees. -/
structure Env where
  original : Problem
  snapshotted : Problem
  deriving DecidableEq, Repr

/-- Dereference a `ProblemRef` in the environment. -/
def Env.get (e : Env) : ProblemRef → Problem
  | ProblemRef.original => e.original
  | ProblemRef.snapshot => e.snapshotted

/-- `problem = deepcopy(self.problem)` (fit_thread.py line 159): the snapshot
slot becomes a structurally independent copy of the original. -/
def Env.takeSnapshot (e : Env) : Env :=
  { e with snapshotted := e.original }

/-- Apply `setp` through a reference: only the referenced slot changes. -/
def Env.setpAt (e : Env) (r : ProblemRef) (point : List ℚ) : Env :=
  match r with
  | ProblemRef.original => { e with original := e.original.setp point }
  | ProblemRef.snapshot => { e with snapshotted := e.snapshotted.setp point }

/-- The latest entry of each field of the mystic `History` record as the
monitors read it (`history.step[0]`, `history.value[0]`, `history.time[0]`,
`history.point[0]`).  `uncertainty_state` is `none` when the history object
has no such attribute (non-ensemble fitters), and `some v` when the attribute
is present with Python value `v` (`some none` models the value `None`,
`some (some b)` an actual state object `b`). -/
structure History where
  time : ℚ
  step : ℕ
  value : ℚ
  point : List ℚ
  uncertainty_state : Option (Option ℕ)
  deriving DecidableEq, Repr

/-- Payload of a posted `FitProgressEvent` beyond the problem reference and
message string. -/
inductive EventData
  | stepData (step : ℕ) (value : ℚ) (point : List ℚ)
  | monitorData (progress : ℕ)
  | stateData (state : Option ℕ)
  deriving DecidableEq, Repr

/-- A `FitProgressEvent` as posted with `wx.PostEvent`: the problem reference
handed to the monitor at construction, the message kind, and the payload. -/
structure FitProgressEvent where
  problem : ProblemRef
  message : String
  data : EventData
  deriving DecidableEq, Repr

/-- Python `x or d` for an optional numeric argument: `None` and `0` are both
falsy, so both select the default `d` (used by `rate or 10`, `rate or 60`,
`progress or PROGRESS_DELAY`). -/
def pyOrDefault (x : Option ℚ) (d : ℚ) : ℚ :=
  match x with
  | none => d
  | some r => if r = 0 then d else r

/-! ## GUIMonitor (fit_thread.py lines 47-78)

The generic GUI monitor wraps an inner monitor (`self.monitor`, e.g. the
`ConvergenceMonitor` from convergence_view, which is outside the files under
study) and throttles event posting: it posts at most once per `rate` seconds
of `History.time`.  The inner monitor is modelled as an arbitrary state type
`σ` with an update function and a `progress()` payload function, mirroring
the pluggable `monitor` constructor argument. -/

/-- Mutable attributes of a `GUIMonitor` instance. -/
structure GUIMonitorState (σ : Type) where
  time : ℚ
  rate : ℚ
  problem : ProblemRef
  message : String
  inner : σ

/-- `GUIMonitor.__init__`: `self.time = 0`, `self.rate = rate or 10`. -/
def GUIMonitor.init {σ : Type} (problem : ProblemRef) (message : String)
    (inner : σ) (rate : Option ℚ) : GUIMonitorState σ :=
  { time := 0, rate := pyOrDefault rate 10, problem := problem,
    message := message, inner := inner }

/-- `GUIMonitor.__call__(history)`: feed the inner monitor, then post a
`FitProgressEvent` when `history.time[0] >= self.time + self.rate`, updating
`self.time` to `history.time[0]` on emission. -/
def GUIMonitor.call {σ : Type} (update : σ → History → σ) (progress : σ → EventData)
    (s : GUIMonitorState σ) (h : History) :
    Option FitProgressEvent × GUIMonitorState σ :=
  let inner := update s.inner h
  if s.time + s.rate ≤ h.time then
    (some { problem := s.problem, message := s.message, data := progress inner },
     { s with inner := inner, time := h.time })
  else
    (none, { s with inner := inner })

/-- `GUIMonitor.final()`: unconditionally post one last event. -/
def GUIMonitor.final {σ : Type} (progress : σ → EventData)
    (s : GUIMonitorState σ) : FitProgressEvent :=
  { problem := s.problem, message := s.message, data := progress s.inner }

/-- Feed a stream of history records to a `GUIMonitor`, collecting the posted
events paired with the `History.time` at which each was posted. -/
def GUIMonitor.processList {σ : Type} (update : σ → History → σ)
    (progress : σ → EventData) :
    GUIMonitorState σ → List History → List (ℚ × FitProgressEvent)
  | _, [] => []
  | s, h :: hs =>
    match GUIMonitor.call update progress s h with
    | (some e, s2) => (h.time, e) :: GUIMonitor.processList update progress s2 hs
    | (none, s2) => GUIMonitor.processList update progress s2 hs

/-- One step of the monitor chain for several independent `GUIMonitor`s fed
the same history record: each monitor is advanced from its own private state
only. -/
def GUIMonitor.chainCall {σ : Type} (update : σ → History → σ)
    (progress : σ → EventData) (states : List (GUIMonitorState σ)) (h : History) :
    List (Option FitProgressEvent × GUIMonitorState σ) :=
  states.map (fun s => GUIMonitor.call update progress s h)

/-! ## GUIProgressMonitor (fit_thread.py lines 23-44)

A `monitor.TimedUpdate` subclass; the `TimedUpdate` throttling logic lives in
mystic (outside the files under study), which invokes the two `show_*`
callbacks below.  Each posts a `FitProgressEvent` built from the problem
reference stored at construction and the latest history entry
(`history.point[0] + 0` copies the point array; the value is unchanged). -/

/-- Attributes of a `GUIProgressMonitor` instance. -/
structure GUIProgressMonitorState where
  problem : ProblemRef
  progressRate : ℚ
  improvementRate : ℚ
  deriving DecidableEq, Repr

/-- `GUIProgressMonitor.__init__`: `progress or PROGRESS_DELAY`,
`improvement or IMPROVEMENT_DELAY` with both delays equal to 5. -/
def GUIProgressMonitor.init (problem : ProblemRef)
    (progress improvement : Option ℚ) : GUIProgressMonitorState :=
  { problem := problem, progressRate := pyOrDefault progress 5,
    improvementRate := pyOrDefault improvement 5 }

/-- `GUIProgressMonitor.show_progress(history)`. -/
def GUIProgressMonitor.show_progress (m : GUIProgressMonitorState)
    (h : History) : FitProgressEvent :=
  { problem := m.problem, message := "progress",
    data := EventData.stepData h.step h.value h.point }

/-- `GUIProgressMonitor.show_improvement(history)`. -/
def GUIProgressMonitor.show_improvement (m : GUIProgressMonitorState)
    (h : History) : FitProgressEvent :=
  { problem := m.problem, message := "improvement",
    data := EventData.stepData h.step h.value h.point }

/-! ## DreamMonitor (fit_thread.py lines 83-112) -/

/-- The only Python exception relevant here: reading a missing attribute. -/
inductive PyError
  | attributeError
  deriving DecidableEq, Repr

/-- Mutable attributes of a `DreamMonitor` instance.  `state` is the Python
value last assigned to `self.state`: `none` models `None` (also the initial
value), `some b` a state object, which as a plain Python object is truthy. -/
structure DreamMonitorState where
  time : ℚ
  rate : ℚ
  problem : ProblemRef
  state : Option ℕ
  deriving DecidableEq, Repr

/-- `DreamMonitor.__init__`: `self.time = 0`, `self.rate = rate or 60`,
`self.state = None`. -/
def DreamMonitor.init (problem : ProblemRef) (rate : Option ℚ) : DreamMonitorState :=
  { time := 0, rate := pyOrDefault rate 60, problem := problem, state := none }

/-- `DreamMonitor.__call__(history)`: line 95 reads
`history.uncertainty_state` unconditionally, so a history without that
attribute raises `AttributeError` before the `hasattr` guard on line 97 is
reached; when the attribute exists, `self.state` is overwritten and an
`uncertainty_update` event carrying `deepcopy(self.state)` is posted when
`history.time[0] >= self.time + self.rate` (the `hasattr` conjunct is then
necessarily true). -/
def DreamMonitor.call (s : DreamMonitorState) (h : History) :
    Except PyError (Option FitProgressEvent × DreamMonitorState) :=
  match h.uncertainty_state with
  | none => Except.error PyError.attributeError
  | some v =>
    let s2 : DreamMonitorState := { s with state := v }
    if s2.time + s2.rate ≤ h.time then
      Except.ok
        (some { problem := s2.problem, message := "uncertainty_update",
                data := EventData.stateData v },
         { s2 with time := h.time })
    else
      Except.ok (none, s2)

/-- `DreamMonitor.final()`: `if self.state:` posts the retained state; by
Python truthiness this fires exactly when the last stored value was an
actual state object, not `None`. -/
def DreamMonitor.final (s : DreamMonitorState) : Option FitProgressEvent :=
  if s.state.isSome then
    some { problem := s.problem, message := "uncertainty_update",
           data := EventData.stateData s.state }
  else
    none

/-- Feed a stream of history records to a `DreamMonitor`, collecting the
posted events; an `AttributeError` in any call aborts the run. -/
def DreamMonitor.processList :
    DreamMonitorState → List History →
      Except PyError (List FitProgressEvent × DreamMonitorState)
  | s, [] => Except.ok ([], s)
  | s, h :: hs =>
    match DreamMonitor.call s h with
    | Except.error e => Except.error e
    | Except.ok (none, s2) => DreamMonitor.processList s2 hs
    | Except.ok (some e, s2) =>
      match DreamMonitor.processList s2 hs with
      | Except.error err => Except.error err
      | Except.ok (es, s3) => Except.ok (e :: es, s3)

/-! ## FitThread (fit_thread.py lines 118-173)

`__init__` stores its arguments and immediately calls `self.start()`; `run`
then executes on the new thread: it builds the three monitors around
`self.problem` (the caller's original), picks the mapper with the constant
`if True:` test, deep-copies the problem, builds the `FitDriver` on the
copy, runs the fit, calls each monitor's `final` and posts the
`FitCompleteEvent`.  There is no `try`/`finally`, so an exception raised by
`driver.fit()` skips the final calls and the complete event and escapes
`run`. -/

/-- The two mapper classes imported by fit_thread.py. -/
inductive MapperKind
  | MPMapper
  | SerialMapper
  deriving DecidableEq, Repr

/-- Lines 152-155: `if True: mapper = MPMapper else: mapper = SerialMapper`. -/
def FitThread.mapperChoice : MapperKind :=
  if true then MapperKind.MPMapper else MapperKind.SerialMapper

/-- An error escaping `driver.fit()` (the fitters package is outside the
files under study, so the outcome of the fit is a parameter of the model). -/
inductive FitError
  | algorithmFailure
  deriving DecidableEq, Repr

/-- The `FitCompleteEvent` posted at the end of `run`
(`problem=self.problem, point=x, value=fx`). -/
structure FitCompleteEvent where
  problem : ProblemRef
  point : List ℚ
  value : ℚ
  deriving DecidableEq, Repr

/-- Steps of a `FitThread`'s observable lifecycle, in program order. -/
inductive LifecycleStep
  | setFields
  | threadStart
  | createMonitors
  | chooseMapper
  | takeSnapshotStep
  | createDriver
  | runFit
  | callFinals
  | postComplete
  deriving DecidableEq, Repr

/-- `FitThread.__init__` (lines 120-131): store the constructor arguments,
then `self.start()`. -/
def FitThread.initTrace : List LifecycleStep :=
  [LifecycleStep.setFields, LifecycleStep.threadStart]

/-- `FitThread.run` (lines 133-173) in statement order: monitors are built
(line 142), the mapper chosen (line 152), `problem = deepcopy(self.problem)`
executed (line 159), the driver constructed (line 161), `driver.fit()` run
(line 166), the monitor finals called (line 168) and the complete event
posted (line 170). -/
def FitThread.runTrace : List LifecycleStep :=
  [LifecycleStep.createMonitors, LifecycleStep.chooseMapper,
   LifecycleStep.takeSnapshotStep, LifecycleStep.createDriver,
   LifecycleStep.runFit, LifecycleStep.callFinals, LifecycleStep.postComplete]

/-- The whole lifecycle of one `FitThread`: `__init__` runs to completion on
the caller's thread (ending with `self.start()`), after which `run` executes
on the new thread. -/
def FitThread.lifecycle : List LifecycleStep :=
  FitThread.initTrace ++ FitThread.runTrace

/-- Everything observable about one execution of `FitThread.run`.
`finalCalls` lists, in order, the indices (0 = `GUIProgressMonitor`,
1 = convergence `GUIMonitor`, 2 = `DreamMonitor`) of the monitors whose
`final` was invoked by the loop at line 168. -/
structure RunObs where
  monitorProblems : List ProblemRef
  mapper : MapperKind
  mapperStartedOn : ProblemRef
  driverProblem : ProblemRef
  finalCalls : List ℕ
  completeEvents : List FitCompleteEvent
  escaped : Option FitError
  deriving DecidableEq, Repr

/-- `FitThread.run` as a function of the outcome of `driver.fit()`.
`progressHasFinal` is `hasattr(GUIProgressMonitor_instance, 'final')`, which
is decided by the mystic `TimedUpdate` base class outside the files under
study; the other two monitors define `final` themselves.  When `fit` raises,
the absence of `try`/`finally` means no `final` is called, no complete event
is posted and the error escapes. -/
def FitThread.run (progressHasFinal : Bool)
    (fitOutcome : Except FitError (List ℚ × ℚ)) : RunObs :=
  let monitorProblems :=
    [ProblemRef.original, ProblemRef.original, ProblemRef.original]
  let mapper := FitThread.mapperChoice
  let mapperStartedOn := ProblemRef.snapshot
  let driverProblem := ProblemRef.snapshot
  match fitOutcome with
  | Except.error e =>
    { monitorProblems := monitorProblems, mapper := mapper,
      mapperStartedOn := mapperStartedOn, driverProblem := driverProblem,
      finalCalls := [], completeEvents := [], escaped := some e }
  | Except.ok (x, fx) =>
    { monitorProblems := monitorProblems, mapper := mapper,
      mapperStartedOn := mapperStartedOn, driverProblem := driverProblem,
      finalCalls := (if progressHasFinal then [0] else []) ++ [1, 2],
      completeEvents :=
        [{ problem := ProblemRef.original, point := x, value := fx }],
      escaped := none }

/-! ## app_panel.py: GUIMonitor (lines 111-126) and
AppPanel.OnFitResult / remember_best (lines 472-497)

The `GUIMonitor` in app_panel.py is a different class from the one in
fit_thread.py: its `show_improvement` calls
`self.problem.setp(history.point[0])` on the problem it was constructed
with — in `OnFit` that is `self.problem`, the caller's original. -/

/-- External side effects of the app_panel code paths under study. -/
inductive AppAction
  | setStatusText (slot : ℕ) (msg : String)
  | pubMessage (topic : String)
  | printLine (msg : String)
  | fitterSave
  | problemSave (best : List ℚ)
  | redirectStdout
  | panelLayout
  | redraw
  deriving DecidableEq, Repr

/-- Attributes of an app_panel `GUIMonitor` instance. -/
structure APMonitorState where
  problem : ProblemRef
  progressRate : ℚ
  improvementRate : ℚ
  deriving DecidableEq, Repr

/-- app_panel `GUIMonitor.show_progress(history)`: sends a text update, does
not touch any problem object. -/
def APMonitor.show_progress (_m : APMonitorState) (env : Env) (_h : History) :
    Env × AppAction :=
  (env, AppAction.pubMessage "update")

/-- app_panel `GUIMonitor.show_improvement(history)`:
`self.problem.setp(history.point[0])`, then summarize and publish. -/
def APMonitor.show_improvement (m : APMonitorState) (env : Env) (h : History) :
    Env × AppAction :=
  (env.setpAt m.problem h.point, AppAction.pubMessage "update_plot")

/-- `AppPanel.remember_best(fitter, problem, best)` (lines 481-497). -/
def AppPanel.remember_best (best : List ℚ) : List AppAction :=
  [AppAction.fitterSave, AppAction.problemSave best, AppAction.redirectStdout,
   AppAction.panelLayout, AppAction.redraw]

/-- `AppPanel.OnFitResult(event)` (lines 472-479): set the status bar,
publish `fit_complete`, then branch solely on `event.data is None`: `None`
(the thread-abort convention) just reports failure; otherwise
`remember_best` persists the best point. -/
def AppPanel.OnFitResult (data : Option (List ℚ)) : List AppAction :=
  [AppAction.setStatusText 3 "Fit status: Complete",
   AppAction.pubMessage "fit_complete"] ++
    match data with
    | none => [AppAction.printLine "Computation failed/aborted"]
    | some best => AppPanel.remember_best best

/-- Persistence actions among `AppAction`s: the saves performed by
`remember_best`. -/
def AppAction.isPersistence : AppAction → Bool
  | AppAction.fitterSave => true
  | AppAction.problemSave _ => true
  | _ => false

/-! ## Concrete inputs used by witnesses and counterexamples -/

/-- A history record without an `uncertainty_state` attribute, as produced by
the non-ensemble fitters. -/
def cHist : History :=
  { time := 12, step := 3, value := 7, point := [1, 2], uncertainty_state := none }

/-- A convergence `GUIMonitor` as built in `FitThread.run` line 143 (rate 5). -/
def cMonitor : GUIMonitorState ℕ :=
  GUIMonitor.init ProblemRef.original "convergence_update" 0 (some 5)

/-- A history record carrying an actual uncertainty-state object. -/
def dreamH1 : History :=
  { time := 0, step := 0, value := 0, point := [], uncertainty_state := some (some 5) }

/-- A later history record whose `uncertainty_state` attribute holds `None`. -/
def dreamH2 : History :=
  { time := 1, step := 1, value := 0, point := [], uncertainty_state := some none }

/-- The `DreamMonitor` state after feeding `dreamH1` then `dreamH2` from the
initial state: no emission fired and the retained state is `None`. -/
def dreamRunEnd : DreamMonitorState :=
  { time := 0, rate := 60, problem := ProblemRef.original, state := none }

/-- A history record at `time = 60` carrying a state, late enough to trigger
the `DreamMonitor` cadence from the initial state. -/
def dreamH3 : History :=
  { time := 60, step := 9, value := 2, point := [4], uncertainty_state := some (some 5) }

/-- The `DreamMonitor` state right after the emission triggered by `dreamH3`. -/
def dreamAfterH3 : DreamMonitorState :=
  { time := 60, rate := 60, problem := ProblemRef.original, state := some 5 }

/-- The `uncertainty_update` event posted for state object `5`. -/
def uncEvent5 : FitProgressEvent :=
  { problem := ProblemRef.original, message := "uncertainty_update",
    data := EventData.stateData (some 5) }

/-- The convergence event emitted by `cMonitor` on `cHist` (inner counter
advanced to 1). -/
def convEvent : FitProgressEvent :=
  { problem := ProblemRef.original, message := "convergence_update",
    data := EventData.monitorData 1 }

/-- The pair of problem environments before the fit: original and snapshot
slots both at parameter value 0. -/
def envC1 : Env :=
  { original := { params := [0] }, snapshotted := { params := [0] } }

/-- The app_panel improvement monitor as built in `OnFit`: it holds the
caller's original problem. -/
def apMonC1 : APMonitorState :=
  { problem := ProblemRef.original, progressRate := 1, improvementRate := 15 }

/-- A history record whose best point is `[3]`. -/
def histC1 : History :=
  { time := 0, step := 1, value := 2, point := [3], uncertainty_state := none }

/-! ## Helper lemmas -/

theorem chain_imp_chain' {α : Type} {R : α → α → Prop} {a : α} {l : List α}
    (h : List.Chain R a l) : List.Chain' R l := by
  cases l with
  | nil => trivial
  | cons b l2 => exact (List.chain_cons.mp h).2

theorem GUIMonitor.call_emit_iff {σ : Type} (update : σ → History → σ)
    (progress : σ → EventData) (s : GUIMonitorState σ) (h : History) :
    ((GUIMonitor.call update progress s h).1).isSome ↔ s.time + s.rate ≤ h.time := by
  unfold GUIMonitor.call
  split <;> simp_all

theorem GUIMonitor.call_time_emit {σ : Type} (update : σ → History → σ)
    (progress : σ → EventData) (s : GUIMonitorState σ) (h : History)
    (he : ((GUIMonitor.call update progress s h).1).isSome) :
    ((GUIMonitor.call update progress s h).2).time = h.time := by
  unfold GUIMonitor.call at he ⊢
  split at he <;> simp_all

/-- The emission times produced from state `s` form a chain anchored at
`s.time`: each successive emission is at least `s.rate` later than the
previous one (and the first at least `s.rate` after `s.time`). -/
theorem GUIMonitor.processList_chain {σ : Type} (update : σ → History → σ)
    (progress : σ → EventData) :
    ∀ (hs : List History) (s : GUIMonitorState σ),
      List.Chain (fun a b => a + s.rate ≤ b) s.time
        ((GUIMonitor.processList update progress s hs).map Prod.fst)
  | [], _ => List.Chain.nil
  | h :: hs, s => by
    by_cases hc : s.time + s.rate ≤ h.time
    · have ih := GUIMonitor.processList_chain update progress hs
        { s with inner := update s.inner h, time := h.time }
      simp only [GUIMonitor.processList, GUIMonitor.call, if_pos hc, List.map_cons]
      exact List.Chain.cons hc ih
    · have ih := GUIMonitor.processList_chain update progress hs
        { s with inner := update s.inner h }
      simp only [GUIMonitor.processList, GUIMonitor.call, if_neg hc]
      exact ih

/-! ## Claim theorems -/

/-- C4: for a `GUIMonitor` with rate `r` fed a nondecreasing-time history
stream, the stored time starts at 0, an event is posted on a call exactly
when the record's time is at least the stored time plus `r`, after an
emission the stored time equals the record's time, consecutive emission
times are therefore at least `r` apart, and each monitor of a chain is
advanced from its own private state only. -/
theorem guiMonitor_throttle {σ : Type} (update : σ → History → σ)
    (progress : σ → EventData) (s : GUIMonitorState σ) (h : History)
    (problem : ProblemRef) (message : String) (inner0 : σ) (rate : Option ℚ)
    (hs : List History)
    (hmono : List.Chain' (fun a b => a ≤ b) (hs.map History.time)) :
    (GUIMonitor.init problem message inner0 rate).time = 0
    ∧ (((GUIMonitor.call update progress s h).1).isSome ↔ s.time + s.rate ≤ h.time)
    ∧ (((GUIMonitor.call update progress s h).1).isSome →
        ((GUIMonitor.call update progress s h).2).time = h.time)
    ∧ List.Chain' (fun a b => a + s.rate ≤ b)
        ((GUIMonitor.processList update progress s hs).map Prod.fst)
    ∧ (∀ s2 : GUIMonitorState σ,
        GUIMonitor.chainCall update progress [s, s2] h
          = [GUIMonitor.call update progress s h, GUIMonitor.call update progress s2 h]) := by
  refine ⟨rfl, GUIMonitor.call_emit_iff update progress s h,
    GUIMonitor.call_time_emit update progress s h,
    chain_imp_chain' (GUIMonitor.processList_chain update progress hs s),
    fun s2 => rfl⟩

/-- Witness for C4: the convergence monitor (rate 5, stored time 0) posts on
a record at time 12, fed after a concrete nondecreasing stream. -/
theorem guiMonitor_throttle_witness :
    ((GUIMonitor.call (fun (u : ℕ) (_ : History) => u + 1) EventData.monitorData
        cMonitor cHist).1).isSome := by
  have hth := guiMonitor_throttle (fun (u : ℕ) (_ : History) => u + 1)
      EventData.monitorData cMonitor cHist ProblemRef.original "convergence_update"
      0 (some 5) [dreamH1, dreamH2]
      (by norm_num [dreamH1, dreamH2, List.chain'_cons])
  exact hth.2.1.mpr (by norm_num [cMonitor, cHist, GUIMonitor.init, pyOrDefault])

/-- C8: calling `DreamMonitor` on a history record without an
`uncertainty_state` attribute raises `AttributeError`: line 95 reads the
attribute unconditionally, before the `hasattr` guard on line 97, so the
guard never makes such a call succeed. -/
theorem dreamMonitor_missing_attribute_raises (s : DreamMonitorState)
    (h : History) (hna : h.uncertainty_state = none) :
    DreamMonitor.call s h = Except.error PyError.attributeError := by
  unfold DreamMonitor.call
  rw [hna]

/-- Witness for C8: the initial monitor state on a concrete record lacking
the attribute. -/
theorem dreamMonitor_missing_attribute_raises_witness :
    cHist.uncertainty_state = none
    ∧ DreamMonitor.call (DreamMonitor.init ProblemRef.original none) cHist
        = Except.error PyError.attributeError :=
  ⟨rfl, dreamMonitor_missing_attribute_raises (DreamMonitor.init ProblemRef.original none) cHist rfl⟩

/-- C9: the `if True:` test at line 152 always selects `MPMapper`; every run
hands `MPMapper.start_mapper` applied to the snapshot to the driver, and the
`SerialMapper` branch is unreachable. -/
theorem fitThread_mapper_always_MP (progressHasFinal : Bool)
    (fitOutcome : Except FitError (List ℚ × ℚ)) :
    FitThread.mapperChoice = MapperKind.MPMapper
    ∧ (FitThread.run progressHasFinal fitOutcome).mapper = MapperKind.MPMapper
    ∧ (FitThread.run progressHasFinal fitOutcome).mapperStartedOn = ProblemRef.snapshot
    ∧ FitThread.mapperChoice ≠ MapperKind.SerialMapper := by
  refine ⟨rfl, ?_, ?_, by decide⟩ <;> cases fitOutcome <;> rfl

/-- C6 counterexample: in the lifecycle trace the deep copy (line 159 of
`run`) does not precede `self.start()` (line 131 of `__init__`): the thread
starts first, so the claim "taken before the fit thread starts running"
fails. -/
theorem fitThread_snapshot_after_thread_start :
    ¬ FitThread.lifecycle.indexOf LifecycleStep.takeSnapshotStep
        < FitThread.lifecycle.indexOf LifecycleStep.threadStart := by decide

/-- C6 amended: the snapshot is taken exactly once, inside the background
thread after it starts (it is a statement of `run`, not of `__init__`), and
before `driver.fit()` runs. -/
theorem fitThread_snapshot_once_in_thread :
    FitThread.lifecycle.count LifecycleStep.takeSnapshotStep = 1
    ∧ FitThread.lifecycle.indexOf LifecycleStep.threadStart
        < FitThread.lifecycle.indexOf LifecycleStep.takeSnapshotStep
    ∧ FitThread.lifecycle.indexOf LifecycleStep.takeSnapshotStep
        < FitThread.lifecycle.indexOf LifecycleStep.runFit
    ∧ LifecycleStep.takeSnapshotStep ∈ FitThread.runTrace
    ∧ LifecycleStep.takeSnapshotStep ∉ FitThread.initTrace := by decide

/-- C2 counterexample: when `driver.fit()` raises, `run` has no
`try`/`finally`, so not a single monitor `final` is invoked — in particular
the `DreamMonitor` (index 2) gets zero `final` calls instead of exactly
one. -/
theorem fitThread_final_skipped_on_error :
    (FitThread.run true (Except.error FitError.algorithmFailure)).finalCalls.count 2 = 0
    ∧ (FitThread.run true (Except.error FitError.algorithmFailure)).finalCalls = [] := by
  exact ⟨rfl, rfl⟩

/-- C2 amended: when `driver.fit()` returns normally, each monitor defining
`final` (the convergence `GUIMonitor` and the `DreamMonitor` always, the
`GUIProgressMonitor` exactly when its mystic base class supplies `final`)
has `final` invoked exactly once; when `driver.fit()` raises, no monitor's
`final` is invoked at all. -/
theorem fitThread_final_calls_amended (progressHasFinal : Bool)
    (x : List ℚ) (fx : ℚ) (e : FitError) :
    (FitThread.run progressHasFinal (Except.ok (x, fx))).finalCalls.count 1 = 1
    ∧ (FitThread.run progressHasFinal (Except.ok (x, fx))).finalCalls.count 2 = 1
    ∧ (FitThread.run progressHasFinal (Except.ok (x, fx))).finalCalls.count 0
        = (if progressHasFinal then 1 else 0)
    ∧ (FitThread.run progressHasFinal (Except.error e)).finalCalls = [] := by
  cases progressHasFinal <;> exact ⟨rfl, rfl, rfl, rfl⟩

/-- C3 counterexample: when `driver.fit()` raises, no `FitCompleteEvent` at
all is posted (neither a result nor an abort sentinel) and the error escapes
`run`, contrary to the claimed exactly-one-terminal-event boundary. -/
theorem fitThread_no_complete_on_error :
    (FitThread.run true (Except.error FitError.algorithmFailure)).completeEvents = []
    ∧ (FitThread.run true (Except.error FitError.algorithmFailure)).escaped
        = some FitError.algorithmFailure := by
  exact ⟨rfl, rfl⟩

/-- C3 amended: when `driver.fit()` returns normally, exactly one
`FitCompleteEvent` is posted, carrying the best point and value and the
original problem reference; when `driver.fit()` raises, no complete event is
posted and the error escapes the thread's `run` method. -/
theorem fitThread_complete_event_amended (progressHasFinal : Bool)
    (x : List ℚ) (fx : ℚ) (e : FitError) :
    (FitThread.run progressHasFinal (Except.ok (x, fx))).completeEvents
        = [{ problem := ProblemRef.original, point := x, value := fx }]
    ∧ (FitThread.run progressHasFinal (Except.ok (x, fx))).escaped = none
    ∧ (FitThread.run progressHasFinal (Except.error e)).completeEvents = []
    ∧ (FitThread.run progressHasFinal (Except.error e)).escaped = some e := by
  exact ⟨rfl, rfl, rfl, rfl⟩

/-- C5 counterexample: a run observing a genuine state object (in `dreamH1`)
followed by a record whose `uncertainty_state` is `None` (in `dreamH2`)
emits nothing during the run, and `final` also emits nothing — even though
a state was observed — because `if self.state:` sees the retained `None`. -/
theorem dreamMonitor_final_silent :
    dreamH1.uncertainty_state = some (some 5)
    ∧ DreamMonitor.processList (DreamMonitor.init ProblemRef.original none)
        [dreamH1, dreamH2] = Except.ok ([], dreamRunEnd)
    ∧ DreamMonitor.final dreamRunEnd = none := by
  refine ⟨rfl, ?_, rfl⟩
  norm_num [DreamMonitor.processList, DreamMonitor.call, DreamMonitor.init,
    dreamH1, dreamH2, dreamRunEnd, pyOrDefault]

/-- C5 amended: every `DreamMonitor` call that does not raise stores the
record's `uncertainty_state` value, and `final` emits an
`uncertainty_update` carrying the retained state exactly when the most
recently stored value is an actual state object (Python truthiness of
`if self.state:`) — if the last stored value is `None`, `final` emits
nothing even when a state object was observed earlier. -/
theorem dreamMonitor_retains_state (s t u : DreamMonitorState) (h : History)
    (v : Option ℕ) (b : ℕ)
    (hv : h.uncertainty_state = some v) (hb : t.state = some b) :
    (∃ r, DreamMonitor.call s h = Except.ok r ∧ (r.2).state = v)
    ∧ ((DreamMonitor.final u).isSome ↔ u.state.isSome)
    ∧ DreamMonitor.final t
        = some { problem := t.problem, message := "uncertainty_update",
                 data := EventData.stateData (some b) } := by
  refine ⟨?_, ?_, ?_⟩
  · simp only [DreamMonitor.call, hv]
    split
    · exact ⟨_, rfl, rfl⟩
    · exact ⟨_, rfl, rfl⟩
  · cases hu : u.state <;> simp [DreamMonitor.final, hu]
  · simp [DreamMonitor.final, hb]

/-- Witness for C5's amended statement: `final` on the state retained after
the emission at `dreamH3` re-emits that state. -/
theorem dreamMonitor_retains_state_witness :
    DreamMonitor.final dreamAfterH3
        = some { problem := dreamAfterH3.problem, message := "uncertainty_update",
                 data := EventData.stateData (some 5) } :=
  (dreamMonitor_retains_state (DreamMonitor.init ProblemRef.original none)
    dreamAfterH3 dreamAfterH3 dreamH1 (some 5) 5 rfl rfl).2.2

/-- C1 counterexample: the app_panel `GUIMonitor` (built in `OnFit` around
the caller's original problem) mutates that original on improvement:
`show_improvement` executes `self.problem.setp(history.point[0])`, so the
parameter values observed through the caller's reference change from `[0]`
to `[3]`. -/
theorem appPanel_improvement_mutates_original :
    ((APMonitor.show_improvement apMonC1 envC1 histC1).1).original ≠ envC1.original
    ∧ ((APMonitor.show_improvement apMonC1 envC1 histC1).1).original.params = [3] := by
  constructor
  · intro hcontra
    have : ([3] : List ℚ) = [0] := congrArg Problem.params hcontra
    simp at this
  · rfl

/-- C1 amended: the `FitDriver` in `FitThread.run` is handed the deep-copied
snapshot, and mutating the snapshot's parameters never changes what the
caller observes through the original; the app_panel `show_progress` path
also leaves both problems untouched; but `show_improvement` in app_panel
writes the history's best point into whichever problem the monitor holds —
the caller's original in `OnFit` — so deep-copy isolation does not extend to
that monitor. -/
theorem snapshot_isolation_amended (env : Env) (pt : List ℚ)
    (m : APMonitorState) (h : History) (progressHasFinal : Bool)
    (fitOutcome : Except FitError (List ℚ × ℚ)) :
    ((Env.takeSnapshot env).setpAt ProblemRef.snapshot pt).original = env.original
    ∧ (FitThread.run progressHasFinal fitOutcome).driverProblem = ProblemRef.snapshot
    ∧ (APMonitor.show_progress m env h).1 = env
    ∧ ((APMonitor.show_improvement m env h).1).get m.problem
        = (env.get m.problem).setp h.point := by
  refine ⟨rfl, ?_, rfl, ?_⟩
  · cases fitOutcome with
    | error e => rfl
    | ok r => rfl
  · obtain ⟨p, pr, ir⟩ := m
    cases p <;> rfl

/-- C7: `OnFitResult` distinguishes completion from abort solely by
`event.data is None`: with a null payload it performs no persistence and
prints the failure message; with a payload it runs `remember_best`, which
saves the best point, and the failure message is absent. -/
theorem onFitResult_null_vs_best (b : List ℚ) :
    (AppPanel.OnFitResult none).any AppAction.isPersistence = false
    ∧ AppAction.printLine "Computation failed/aborted" ∈ AppPanel.OnFitResult none
    ∧ AppAction.problemSave b ∈ AppPanel.OnFitResult (some b)
    ∧ AppAction.printLine "Computation failed/aborted" ∉ AppPanel.OnFitResult (some b)
    ∧ AppAction.problemSave b ∈ AppPanel.remember_best b := by
  refine ⟨rfl, ?_, ?_, ?_, ?_⟩ <;>
    simp [AppPanel.OnFitResult, AppPanel.remember_best]

/-- C10: every event posted during a fit run carries the caller's original
problem: the three monitors in `run` are constructed around the original,
each monitor's posted events (periodic and final, for all three monitor
classes) carry the problem stored at construction, the complete event
carries the original, and the original is never the snapshot. -/
theorem fitRun_events_carry_original {σ : Type} (update : σ → History → σ)
    (progress : σ → EventData) (s : GUIMonitorState σ)
    (ds ds2 ds3 : DreamMonitorState) (m : GUIProgressMonitorState) (h : History)
    (progressHasFinal : Bool) (fitOutcome : Except FitError (List ℚ × ℚ))
    (e e2 e3 : FitProgressEvent) (ce : FitCompleteEvent)
    (hge : (GUIMonitor.call update progress s h).1 = some e)
    (hde : DreamMonitor.call ds h = Except.ok (some e2, ds2))
    (hfe : DreamMonitor.final ds3 = some e3)
    (hce : ce ∈ (FitThread.run progressHasFinal fitOutcome).completeEvents) :
    (FitThread.run progressHasFinal fitOutcome).monitorProblems
        = [ProblemRef.original, ProblemRef.original, ProblemRef.original]
    ∧ (GUIProgressMonitor.show_progress m h).problem = m.problem
    ∧ (GUIProgressMonitor.show_improvement m h).problem = m.problem
    ∧ e.problem = s.problem
    ∧ (GUIMonitor.final progress s).problem = s.problem
    ∧ e2.problem = ds.problem
    ∧ e3.problem = ds3.problem
    ∧ ce.problem = ProblemRef.original
    ∧ ProblemRef.original ≠ ProblemRef.snapshot := by
  refine ⟨?_, rfl, rfl, ?_, rfl, ?_, ?_, ?_, by decide⟩
  · cases fitOutcome with
    | error e => rfl
    | ok r => rfl
  · unfold GUIMonitor.call at hge
    split at hge
    · cases hge
      rfl
    · exact absurd hge (by simp)
  · unfold DreamMonitor.call at hde
    split at hde
    · simp at hde
    · dsimp only at hde
      split at hde
      · simp only [Except.ok.injEq, Prod.mk.injEq, Option.some.injEq] at hde
        rw [← hde.1]
      · simp at hde
  · unfold DreamMonitor.final at hfe
    split at hfe
    · cases hfe
      rfl
    · exact absurd hfe (by simp)
  · cases fitOutcome with
    | error err => simp [FitThread.run] at hce
    | ok r =>
      simp only [FitThread.run, List.mem_singleton] at hce
      rw [hce]

/-- Witness for C10: concrete emissions from the convergence monitor, the
dream monitor (periodic and final) and the complete event, all carrying the
original problem. -/
theorem fitRun_events_carry_original_witness :
    convEvent.problem = ProblemRef.original
    ∧ uncEvent5.problem = ProblemRef.original := by
  have hth := fitRun_events_carry_original (fun (u : ℕ) (_ : History) => u + 1)
      EventData.monitorData cMonitor (DreamMonitor.init ProblemRef.original none)
      dreamAfterH3 dreamAfterH3
      (GUIProgressMonitor.init ProblemRef.original none none) dreamH3
      true (Except.ok ([], 0)) convEvent uncEvent5 uncEvent5
      { problem := ProblemRef.original, point := [], value := 0 }
      (by norm_num [GUIMonitor.call, cMonitor, GUIMonitor.init, pyOrDefault,
            dreamH3, convEvent, EventData.monitorData])
      (by norm_num [DreamMonitor.call, DreamMonitor.init, pyOrDefault,
            dreamH3, dreamAfterH3, uncEvent5])
      (by norm_num [DreamMonitor.final, dreamAfterH3, uncEvent5])
      (by simp [FitThread.run])
  exact ⟨hth.2.2.2.1, hth.2.2.2.2.2.1⟩

end Refl1d
